import Mathlib

/-!
Verification development for the chat synchronization engine.

The definitions below are a shallow embedding of the engine's source:

- `apps/sync/services/external_api.py` (`MockExternalAPIClient`): the
  paginated source. `failure_rate` is fixed to its default `0.0`, so the
  simulated-random failure branch never fires and `get_chats` is total.
  The base64 cursor codec is modelled as a decimal codec: the cursor is
  opaque to the engine and only the round trip decode (encode n) = n is
  ever used.
- `apps/sync/services/dynamodb.py` (`MockMessageStore`): the document
  store, a per-(chat_id, message_id) upsert.
- `apps/chats/models.py` (`Customer`, `Deal`, `DealManager`) and
  `apps/chats/views.py` (`DealViewSet.get_queryset`).
- `apps/sync/models.py` (`SyncState`).
- `apps/sync/services/sync_service.py` (`SyncService`): the engine.
  `transaction.atomic()` is modelled by building the candidate post
  state and discarding it (returning the pre state) when the block
  raises; the only fallible operation inside the block in the embedded
  fragment is the document-store write, so a failure oracle `df` keyed
  by (chat external id, message id) decides where it raises.  The
  avatar upload (`_queue_avatar_upload`) swallows its own failures; an
  oracle `av` on the avatar URL decides whether the HTTP fetch returns
  200.
- `apps/sync/tasks.py` (`sync_chats_task`, `_get_or_create_sync_state`):
  the lock-guarded task.  `cache.add` is an atomic set-if-absent, so its
  outcome is the boolean `lockBusy` (true when another run holds the
  lock).  Timestamps (`started_at`/`updated_at`/`created_at` audit
  columns) carry no logic and are omitted; datetimes that are compared
  (`last_message_at`, `max_date`) are embedded as `Int`.

Every run-relevant write is also recorded in an operation trace (`Op`),
so that ordering and transaction-boundary properties can be stated.
-/

/-- Sync status of a Deal row (`Deal.SyncStatus`). -/
inductive SyncStatus where
  | pending : SyncStatus
  | complete : SyncStatus
  | failed : SyncStatus
  deriving DecidableEq, Repr

/-- Status of a sync run (`SyncState.Status`). -/
inductive RunStatus where
  | pending : RunStatus
  | running : RunStatus
  | completed : RunStatus
  | failed : RunStatus
  deriving DecidableEq, Repr

/-- A message inside a chat, as returned by the external API. -/
structure ChatMessage where
  message_id : String
  text : String
  created_at : Int
  deriving DecidableEq, Repr

/-- Customer data attached to a chat, as returned by the external API. -/
structure ChatCustomer where
  external_id : String
  name : String
  avatar_url : String
  deriving DecidableEq, Repr

/-- A chat record from the external API. -/
structure Chat where
  external_id : String
  customer : ChatCustomer
  last_message : ChatMessage
  deriving DecidableEq, Repr

/-- One page of chats from the external API. -/
structure ChatPage where
  chats : List Chat
  next_cursor : Option String
  has_more : Bool
  deriving DecidableEq, Repr

/-- A row of the `customers` table. -/
structure Customer where
  external_id : String
  name : String
  avatar_url : String
  avatar_s3_key : String
  deriving DecidableEq, Repr

/-- A row of the `deals` table; `customer` is the nullable foreign key,
held as the referenced customer's external id. -/
structure Deal where
  external_id : String
  customer : Option String
  last_message_id : String
  last_message_at : Int
  total_messages : Nat
  sync_status : SyncStatus
  deriving DecidableEq, Repr

/-- A record of the document store, keyed by (chat_id, message_id). -/
structure MsgRecord where
  chat_id : String
  message_id : String
  text : String
  created_at : Int
  deriving DecidableEq, Repr

/-- The two data stores the engine writes entity data to: the relational
index (customers and deals) and the document store (messages). -/
structure Db where
  customers : List Customer
  deals : List Deal
  messages : List MsgRecord
  deriving DecidableEq, Repr

/-- The empty database. -/
def emptyDb : Db := { customers := [], deals := [], messages := [] }

/-- A `sync_states` row (`SyncState` model). -/
structure SyncState where
  task_id : String
  status : RunStatus
  cursor : String
  max_date : Option Int
  processed_chats : Nat
  error_message : String
  deriving DecidableEq, Repr

/-- Operations the engine performs against the stores, recorded as a
trace.  Transaction boundaries of `transaction.atomic()` are explicit. -/
inductive Op where
  | txnBegin : Op
  | txnCommit : Op
  | txnRollback : Op
  | createCustomer (cid : String) : Op
  | updateCustomer (cid : String) : Op
  | createDeal (did : String) : Op
  | updateDeal (did : String) : Op
  | docWrite (did : String) (mid : String) : Op
  | finalizeDeal (did : String) : Op
  | markFailed (did : String) : Op
  | saveCursor (c : String) : Op
  | incProcessed : Op
  | saveRunStatus (s : RunStatus) : Op
  deriving DecidableEq, Repr

/-- True on the write that opens a relational transaction. -/
def Op.isTxnBegin : Op → Bool
  | .txnBegin => true
  | _ => false

/-- True on document-store writes. -/
def Op.isDocWrite : Op → Bool
  | .docWrite _ _ => true
  | _ => false

/-- True on the finalize write (COMPLETE plus counter increment). -/
def Op.isFinalize : Op → Bool
  | .finalizeDeal _ => true
  | _ => false

/-- True on cursor persists to the Run State. -/
def Op.isSaveCursor : Op → Bool
  | .saveCursor _ => true
  | _ => false

/-- True on operations that are neither transaction markers, nor the
document write, nor the finalize write. -/
def Op.isPlain : Op → Bool
  | .txnBegin => false
  | .txnCommit => false
  | .txnRollback => false
  | .docWrite _ _ => false
  | .finalizeDeal _ => false
  | _ => true

/-- True on writes that touch the relational index (customers or deals)
or the document store, as opposed to Run State bookkeeping. -/
def Op.isDataWrite : Op → Bool
  | .createCustomer _ => true
  | .updateCustomer _ => true
  | .createDeal _ => true
  | .updateDeal _ => true
  | .docWrite _ _ => true
  | .finalizeDeal _ => true
  | .markFailed _ => true
  | _ => false

/-- Number of operations in a trace satisfying a predicate. -/
def countOps (p : Op → Bool) (tr : List Op) : Nat :=
  (tr.filter p).length

/-- Walks a trace tracking the relational-transaction nesting depth and
reports whether some document-store write happens at depth zero, that
is, outside any relational transaction. -/
def existsDocWriteOutsideTxn : Nat → List Op → Bool
  | _, [] => false
  | d, Op.txnBegin :: r => existsDocWriteOutsideTxn (d + 1) r
  | d, Op.txnCommit :: r => existsDocWriteOutsideTxn (d - 1) r
  | d, Op.txnRollback :: r => existsDocWriteOutsideTxn (d - 1) r
  | d, Op.docWrite _ _ :: r => (d == 0) || existsDocWriteOutsideTxn d r
  | d, _ :: r => existsDocWriteOutsideTxn d r

/-- Mock external API parameters (`MockExternalAPIClient.__init__`);
`failure_rate` is its default 0.0 and is therefore not a field. -/
structure MockApi where
  total_chats : Nat
  page_size : Nat
  base_date : Int
  deriving DecidableEq, Repr

/-- Left-pads a number with zeros to width 4, as Python `{n:04d}`. -/
def pad4 (n : Nat) : String :=
  let s := toString n
  String.mk (List.replicate (4 - s.length) '0') ++ s

/-- Encodes a page number as a cursor (`_encode_cursor`).  The base64
layer is modelled as a decimal rendering: the engine treats the cursor
as opaque and only the round trip with `decodeCursor` matters. -/
def encodeCursor (n : Nat) : String := toString n

/-- Value of a decimal digit character, `none` on anything else. -/
def charDigit (c : Char) : Option Nat :=
  if 48 ≤ c.toNat && c.toNat ≤ 57 then some (c.toNat - 48) else none

/-- Parses a run of decimal digits into a number, `none` on the first
non-digit (the `int(...)` of the cursor codec). -/
def parseDigits : List Char → Nat → Option Nat
  | [], acc => some acc
  | c :: cs, acc =>
    match charDigit c with
    | some d => parseDigits cs (acc * 10 + d)
    | none => none

/-- Parses a whole string as a decimal number; empty strings parse to
`none`. -/
def strToNat (s : String) : Option Nat :=
  match s.data with
  | [] => none
  | l => parseDigits l 0

/-- Decodes a cursor back to a page number (`_decode_cursor`): a missing
or empty or malformed cursor decodes to 0. -/
def decodeCursor : Option String → Nat
  | none => 0
  | some s => (strToNat s).getD 0

/-- Generates the deterministic chat for an index (`_generate_chat`).
Message dates descend by one unit per index (newest first). -/
def generateChat (api : MockApi) (i : Nat) : Chat :=
  { external_id := "chat_" ++ pad4 i
    customer :=
      { external_id := "cust_" ++ pad4 i
        name := "Customer " ++ toString i
        avatar_url := "https://example.com/avatars/cust_" ++ pad4 i ++ ".jpg" }
    last_message :=
      { message_id := "msg_" ++ pad4 i
        text := "Message from customer " ++ toString i
        created_at := api.base_date - (i : Int) } }

/-- Fetches one page of chats (`MockExternalAPIClient.get_chats` with
`failure_rate = 0`). -/
def getChats (api : MockApi) (cursor : Option String) : ChatPage :=
  let page_num := decodeCursor cursor
  let start_idx := page_num * api.page_size
  let end_idx := min (start_idx + api.page_size) api.total_chats
  let chats := (List.range' start_idx (end_idx - start_idx)).map (generateChat api)
  let has_more := decide (end_idx < api.total_chats)
  let next_cursor := if has_more then some (encodeCursor (page_num + 1)) else none
  { chats := chats, next_cursor := next_cursor, has_more := has_more }

/-- Looks up a customer row by external id. -/
def findCustomer (db : Db) (cid : String) : Option Customer :=
  db.customers.find? (fun c => c.external_id == cid)

/-- Looks up a deal row by external id
(`Deal.objects.filter(external_id=...).first()`). -/
def findDeal (db : Db) (did : String) : Option Deal :=
  db.deals.find? (fun d => d.external_id == did)

/-- Saves the given fields of the customer row with the given external
id (a `customer.save(update_fields=...)`). -/
def updateCustomerRow (db : Db) (cid : String) (f : Customer → Customer) : Db :=
  { db with customers := db.customers.map (fun c => if c.external_id == cid then f c else c) }

/-- Saves the given fields of the deal row with the given external id
(a `deal.save(update_fields=...)`). -/
def updateDealRow (db : Db) (did : String) (f : Deal → Deal) : Db :=
  { db with deals := db.deals.map (fun d => if d.external_id == did then f d else d) }

/-- Upserts a message into the document store keyed by
(chat_id, message_id) (`MockMessageStore.save_message`). -/
def saveMessage (db : Db) (cid mid text : String) (ts : Int) : Db :=
  { db with
      messages :=
        db.messages.filter (fun m => !(m.chat_id == cid && m.message_id == mid))
          ++ [{ chat_id := cid, message_id := mid, text := text, created_at := ts }] }

/-- Resolves the counterparty (`SyncService._get_or_create_customer`
together with `_queue_avatar_upload`): create-if-absent by external id;
a newly created customer with a non-empty avatar URL gets a synchronous
upload attempt whose success is decided by the oracle `av`; failures of
the upload are swallowed. -/
def getOrCreateCustomer (av : String → Bool) (db : Db) (chat : Chat) :
    Db × Customer × List Op :=
  match findCustomer db chat.customer.external_id with
  | some c => (db, c, [])
  | none =>
    let c : Customer :=
      { external_id := chat.customer.external_id
        name := chat.customer.name
        avatar_url := chat.customer.avatar_url
        avatar_s3_key := "" }
    let db1 : Db := { db with customers := db.customers ++ [c] }
    if chat.customer.avatar_url == "" then
      (db1, c, [Op.createCustomer c.external_id])
    else if av chat.customer.avatar_url then
      let c2 : Customer := { c with avatar_s3_key := "avatars/" ++ chat.customer.external_id ++ ".jpg" }
      (updateCustomerRow db1 c.external_id (fun _ => c2), c2,
        [Op.createCustomer c.external_id, Op.updateCustomer c.external_id])
    else
      (db1, c, [Op.createCustomer c.external_id])

/-- Creates or updates the deal row with PENDING status
(`SyncService._create_or_update_deal`); an update leaves
`total_messages` untouched (it is not in `update_fields`). -/
def createOrUpdateDeal (db : Db) (chat : Chat) (customer : Customer)
    (existing : Option Deal) : Db × Deal × List Op :=
  match existing with
  | some d =>
    let d2 : Deal :=
      { d with
          customer := some customer.external_id
          last_message_id := chat.last_message.message_id
          last_message_at := chat.last_message.created_at
          sync_status := SyncStatus.pending }
    (updateDealRow db d.external_id (fun _ => d2), d2, [Op.updateDeal d.external_id])
  | none =>
    let d : Deal :=
      { external_id := chat.external_id
        customer := some customer.external_id
        last_message_id := chat.last_message.message_id
        last_message_at := chat.last_message.created_at
        total_messages := 0
        sync_status := SyncStatus.pending }
    ({ db with deals := db.deals ++ [d] }, d, [Op.createDeal chat.external_id])

/-- The per-record atomic section (`SyncService._sync_chat_atomic`).
Everything — counterparty resolution, deal upsert, the document-store
write, and the finalize write — runs inside one `transaction.atomic()`
block; if the document write raises (oracle `df`), the relational
transaction rolls back, i.e. the original `db` is kept and `none` is
returned. -/
def syncChatAtomic (df : String → String → Bool) (av : String → Bool)
    (db : Db) (chat : Chat) (existing : Option Deal) : Option Db × List Op :=
  let r1 := getOrCreateCustomer av db chat
  let r2 := createOrUpdateDeal r1.1 chat r1.2.1 existing
  let deal := r2.2.1
  if df chat.external_id chat.last_message.message_id then
    (none, Op.txnBegin :: (r1.2.2 ++ r2.2.2) ++ [Op.txnRollback])
  else
    let db3 := saveMessage r2.1 deal.external_id chat.last_message.message_id
      chat.last_message.text chat.last_message.created_at
    let db4 := updateDealRow db3 deal.external_id
      (fun _ => { deal with
                    sync_status := SyncStatus.complete
                    total_messages := deal.total_messages + 1 })
    (some db4,
      Op.txnBegin :: (r1.2.2 ++ r2.2.2)
        ++ [Op.docWrite deal.external_id chat.last_message.message_id,
            Op.finalizeDeal deal.external_id, Op.txnCommit])

/-- Engine state threaded through a run: the two data stores plus the
Run State row the run mutates. -/
structure EngineState where
  db : Db
  sync : SyncState
  deriving DecidableEq, Repr

/-- The cutoff check of `_process_chat` (Initial Run scenario): stop
when a cutoff is configured and the record's timestamp is strictly
older than it. -/
def cutoffHit (maxDate : Option Int) (chat : Chat) : Bool :=
  match maxDate with
  | some d => decide (chat.last_message.created_at < d)
  | none => false

/-- The no-change check of `_process_chat` (Incremental Run scenario):
stop when an entity for the external id exists and already carries the
incoming record's message id. -/
def noChangeHit (db : Db) (chat : Chat) : Bool :=
  match findDeal db chat.external_id with
  | some d => d.last_message_id == chat.last_message.message_id
  | none => false

/-- Increments the run's processed counter
(`SyncService._increment_processed`). -/
def incrementProcessed (s : SyncState) : SyncState :=
  { s with processed_chats := s.processed_chats + 1 }

/-- Marks the deal row FAILED; only `sync_status` (and the audit
timestamp) are in `update_fields`, so the other columns keep their
rolled-back values. -/
def markDealFailed (db : Db) (did : String) : Db :=
  updateDealRow db did (fun d => { d with sync_status := SyncStatus.failed })

/-- The part of `_process_chat` after the cutoff and no-change checks:
run the atomic section; on success increment the processed counter; on
failure mark the pre-existing deal (if any) FAILED and continue. -/
def processChatBody (df : String → String → Bool) (av : String → Bool)
    (es : EngineState) (chat : Chat) : EngineState × Bool × List Op :=
  let existing := findDeal es.db chat.external_id
  let r := syncChatAtomic df av es.db chat existing
  match r.1 with
  | some db2 =>
    ({ db := db2, sync := incrementProcessed es.sync }, false, r.2 ++ [Op.incProcessed])
  | none =>
    match existing with
    | some d =>
      ({ db := markDealFailed es.db d.external_id, sync := es.sync }, false,
        r.2 ++ [Op.markFailed d.external_id])
    | none => ({ db := es.db, sync := es.sync }, false, r.2)

/-- Processes a single chat (`SyncService._process_chat`); the Bool is
the stop signal. -/
def processChat (df : String → String → Bool) (av : String → Bool)
    (es : EngineState) (chat : Chat) : EngineState × Bool × List Op :=
  if cutoffHit es.sync.max_date chat then (es, true, [])
  else if noChangeHit es.db chat then (es, true, [])
  else processChatBody df av es chat

/-- Processes the chats of a page in order, returning early with the
stop signal (`SyncService._process_page`). -/
def processChats (df : String → String → Bool) (av : String → Bool) :
    EngineState → List Chat → EngineState × Bool × List Op
  | es, [] => (es, false, [])
  | es, chat :: rest =>
    let r := processChat df av es chat
    if r.2.1 then (r.1, true, r.2.2)
    else
      let r2 := processChats df av r.1 rest
      (r2.1, r2.2.1, r.2.2 ++ r2.2.2)

/-- The page loop of `SyncService.run`: fetch a page, process its
chats, persist the cursor when the page produced one, stop on the stop
signal or when no further pages exist.  Structural recursion is driven
by a fuel argument; the scenarios below always supply enough fuel. -/
def runLoop (api : MockApi) (df : String → String → Bool) (av : String → Bool) :
    Nat → EngineState → Option String → EngineState × List Op
  | 0, es, _ => (es, [])
  | fuel + 1, es, cursor =>
    let page := getChats api cursor
    let r := processChats df av es page.chats
    let es2 := match page.next_cursor with
      | some c => { r.1 with sync := { r.1.sync with cursor := c } }
      | none => r.1
    let ops2 := match page.next_cursor with
      | some c => [Op.saveCursor c]
      | none => ([] : List Op)
    if r.2.1 || !page.has_more then (es2, r.2.2 ++ ops2)
    else
      let r3 := runLoop api df av fuel es2 page.next_cursor
      (r3.1, r.2.2 ++ ops2 ++ r3.2)

/-- True on Run State rows that count as incomplete
(`status__in=[RUNNING, PENDING]`). -/
def isIncomplete (s : SyncState) : Bool :=
  s.status == RunStatus.running || s.status == RunStatus.pending

/-- Number of incomplete Run State rows in the store. -/
def countIncomplete (store : List SyncState) : Nat :=
  (store.filter isIncomplete).length

/-- Resumes an existing incomplete Run State or creates a fresh PENDING
one (`_get_or_create_sync_state`); the Bool reports whether a row was
created. -/
def getOrCreateSyncState (store : List SyncState) (task_id : String)
    (max_date : Option Int) : SyncState × List SyncState × Bool :=
  match store.find? isIncomplete with
  | some s => (s, store, false)
  | none =>
    let s : SyncState :=
      { task_id := task_id, status := RunStatus.pending, cursor := ""
        max_date := max_date, processed_chats := 0, error_message := "" }
    (s, store ++ [s], true)

/-- Replaces the Run State row with the given task id (`task_id` is
unique) by a new value, modelling `state.save(...)`. -/
def replaceRun (store : List SyncState) (tid : String) (s : SyncState) : List SyncState :=
  store.map (fun r => if r.task_id == tid then s else r)

/-- The world a task invocation acts on: the data stores plus the Run
State store. -/
structure World where
  db : Db
  runStore : List SyncState
  deriving DecidableEq, Repr

/-- Return value of the task (`sync_chats_task` returns a status dict:
either skipped, or completed with the processed count and task id). -/
inductive TaskOutcome where
  | skipped : TaskOutcome
  | completed (processed : Nat) (task_id : String) : TaskOutcome
  deriving DecidableEq, Repr

/-- The lock-guarded Celery task (`sync_chats_task`).  `cache.add` is
an atomic set-if-absent whose failure is the flag `lockBusy`; when it
fails the task returns the skipped outcome before touching any Run
State.  Otherwise: load or create the Run State, mark it RUNNING, run
the engine, mark it COMPLETED.  In the embedded fragment `get_chats`
is total (failure_rate 0) and record-level failures are swallowed by
`_process_chat`, so the task's exception branch (FAILED plus bounded
retry) is unreachable and not modelled. -/
def syncChatsTask (api : MockApi) (df : String → String → Bool) (av : String → Bool)
    (lockBusy : Bool) (fuel : Nat) (w : World) (task_id : String)
    (max_date : Option Int) : TaskOutcome × World × List Op :=
  if lockBusy then (TaskOutcome.skipped, w, [])
  else
    let r := getOrCreateSyncState w.runStore task_id max_date
    let st := r.1
    let st1 := { st with status := RunStatus.running }
    let store2 := replaceRun r.2.1 st.task_id st1
    let cursor0 : Option String := if st1.cursor == "" then none else some st1.cursor
    let r2 := runLoop api df av fuel { db := w.db, sync := st1 } cursor0
    let st2 := { r2.1.sync with status := RunStatus.completed }
    let store3 := replaceRun store2 st.task_id st2
    (TaskOutcome.completed r2.1.sync.processed_chats st.task_id,
      { db := r2.1.db, runStore := store3 },
      Op.saveRunStatus RunStatus.running :: r2.2 ++ [Op.saveRunStatus RunStatus.completed])

/-- The manager-level listing of complete deals
(`DealManager.complete`): filters on `sync_status` only. -/
def dealManagerComplete (deals : List Deal) : List Deal :=
  deals.filter (fun d => d.sync_status == SyncStatus.complete)

/-- Descending order on `last_message_at`
(`order_by('-last_message_at')`). -/
def lastMessageDesc (a b : Deal) : Bool :=
  decide (b.last_message_at ≤ a.last_message_at)

/-- The consumer-facing listing (`DealViewSet.get_queryset`): COMPLETE
status, non-null customer, newest first. -/
def dealViewSetQueryset (deals : List Deal) : List Deal :=
  (deals.filter (fun d => d.sync_status == SyncStatus.complete && d.customer.isSome)).mergeSort
    lastMessageDesc

/-- External ids of the customer rows of a database, in row order. -/
def custIds (cs : List Customer) : List String := cs.map (fun c => c.external_id)

/-- Invariant of the relational index: every COMPLETE deal row carries a
non-null customer reference. -/
def completeHasCustomer (db : Db) : Prop :=
  ∀ d ∈ db.deals, d.sync_status = SyncStatus.complete → d.customer.isSome = true

/-- The mock source of the 25-record scenario: 25 chats in pages of 10. -/
def api25 : MockApi := { total_chats := 25, page_size := 10, base_date := 0 }

/-- The mock source of the single-page failure scenario: 10 chats in one
page. -/
def api10 : MockApi := { total_chats := 10, page_size := 10, base_date := 0 }

/-- Failure oracle under which no document-store write fails. -/
def dfNone : String → String → Bool := fun _ _ => false

/-- Failure oracle under which the document-store write for record 7 of
the mock page (index 6, external id chat_0006) raises. -/
def df7 : String → String → Bool := fun cid _ => cid == "chat_0006"

/-- Avatar oracle under which every avatar fetch fails (the upload is
swallowed either way). -/
def avFalse : String → Bool := fun _ => false

/-- A world with empty stores and no Run State. -/
def emptyWorld : World := { db := emptyDb, runStore := [] }

/-- The 25-record scenario run: cutoff unset, no failures, lock free. -/
def c3Run : TaskOutcome × World × List Op :=
  syncChatsTask api25 dfNone avFalse false 10 emptyWorld "t1" none

/-- The world left behind by the 25-record scenario run. -/
def c3World : World := c3Run.2.1

/-- A second task invocation against the unchanged source and the world
of the completed first run. -/
def c5Run : TaskOutcome × World × List Op :=
  syncChatsTask api25 dfNone avFalse false 10 c3World "t2" none

/-- The Run State row the second invocation is running under when it
examines the first record. -/
def c5RunState : SyncState :=
  { task_id := "t2", status := RunStatus.running, cursor := ""
    max_date := none, processed_chats := 0, error_message := "" }

/-- Failure scenario A: ten fresh records, record 7's document write
raises. -/
def c2RunA : TaskOutcome × World × List Op :=
  syncChatsTask api10 df7 avFalse false 10 emptyWorld "t1" none

/-- A pre-existing, stale entity row for record 7 (different last
message id, so the no-change check does not fire). -/
def c2DealOld : Deal :=
  { external_id := "chat_0006", customer := none, last_message_id := "msg_old"
    last_message_at := 5, total_messages := 3, sync_status := SyncStatus.complete }

/-- Failure scenario B: like scenario A but record 7 already has an
entity row before the run. -/
def c2RunB : TaskOutcome × World × List Op :=
  syncChatsTask api10 df7 avFalse false 10
    { db := { customers := [], deals := [c2DealOld], messages := [] }, runStore := [] }
    "t1" none

/-- A deal row that is COMPLETE but has a null customer reference. -/
def c4Deal : Deal :=
  { external_id := "d1", customer := none, last_message_id := "m1"
    last_message_at := 0, total_messages := 1, sync_status := SyncStatus.complete }

/-- Chat used for the C1 witnesses: the first chat of the mock source. -/
def c1Chat : Chat := generateChat api25 0

/-- Engine state with a configured cutoff of 5 for the cutoff-boundary
scenario. -/
def c6Es : EngineState :=
  { db := emptyDb
    sync := { task_id := "t", status := RunStatus.running, cursor := ""
              max_date := some 5, processed_chats := 0, error_message := "" } }

/-- A record whose timestamp equals the cutoff exactly. -/
def c6ChatAt : Chat :=
  { external_id := "e1"
    customer := { external_id := "c1", name := "n", avatar_url := "" }
    last_message := { message_id := "m1", text := "t", created_at := 5 } }

/-- A record whose timestamp is one unit before the cutoff. -/
def c6ChatBelow : Chat :=
  { external_id := "e2"
    customer := { external_id := "c2", name := "n", avatar_url := "" }
    last_message := { message_id := "m2", text := "t", created_at := 4 } }

/-- An incomplete (RUNNING) Run State row with a stored cursor and
counters, for the resumption witness. -/
def c7StoreHead : SyncState :=
  { task_id := "a", status := RunStatus.running, cursor := "5"
    max_date := none, processed_chats := 7, error_message := "" }

/-- A Run State store holding exactly that incomplete run. -/
def c7Store : List SyncState := [c7StoreHead]

/-- A customer row that already exists before the engine runs, matching
the external id of the mock source's first record. -/
def c9Cust : Customer :=
  { external_id := "cust_0000", name := "Old Name", avatar_url := "", avatar_s3_key := "" }

/-- Engine state whose index already holds that customer row. -/
def c9Es : EngineState :=
  { db := { customers := [c9Cust], deals := [], messages := [] }
    sync := { task_id := "t", status := RunStatus.running, cursor := ""
              max_date := none, processed_chats := 0, error_message := "" } }

/-- Sync state used by the rollback witnesses. -/
def c10Sync : SyncState :=
  { task_id := "t", status := RunStatus.running, cursor := ""
    max_date := none, processed_chats := 0, error_message := "" }

/-- The failing record of the rollback witnesses: record 7 of the mock
page. -/
def c10Chat : Chat := generateChat api10 6

/-- Relation between a pre and post database capturing the engine's
frame and invariant obligations: existing customer rows survive
unmodified, uniqueness of customer external ids is preserved, and the
COMPLETE-implies-customer invariant is preserved. -/
def dbInvStep (pre post : Db) : Prop :=
  (∀ c ∈ pre.customers, c ∈ post.customers)
  ∧ ((custIds pre.customers).Nodup → (custIds post.customers).Nodup)
  ∧ (completeHasCustomer pre → completeHasCustomer post)

set_option maxRecDepth 8000

theorem dbInvStep_refl (db : Db) : dbInvStep db db :=
  ⟨fun _ h => h, id, id⟩

theorem dbInvStep_trans {a b c : Db} (h1 : dbInvStep a b) (h2 : dbInvStep b c) :
    dbInvStep a c :=
  ⟨fun x hx => h2.1 x (h1.1 x hx), fun h => h2.2.1 (h1.2.1 h), fun h => h2.2.2 (h1.2.2 h)⟩

theorem isTxnBegin_of_plain : ∀ o, Op.isPlain o = true → Op.isTxnBegin o = false := by
  intro o h
  cases o <;> simp_all [Op.isPlain, Op.isTxnBegin]

theorem isDocWrite_of_plain : ∀ o, Op.isPlain o = true → Op.isDocWrite o = false := by
  intro o h
  cases o <;> simp_all [Op.isPlain, Op.isDocWrite]

theorem isFinalize_of_plain : ∀ o, Op.isPlain o = true → Op.isFinalize o = false := by
  intro o h
  cases o <;> simp_all [Op.isPlain, Op.isFinalize]

theorem filter_special_nil {p : Op → Bool} (hp : ∀ o, Op.isPlain o = true → p o = false)
    {l : List Op} (h : l.all Op.isPlain = true) : l.filter p = [] := by
  rw [List.filter_eq_nil_iff]
  intro o hm
  simp [hp o (List.all_eq_true.mp h o hm)]

theorem existsDocWrite_skip_plain {l1 : List Op} (h : l1.all Op.isPlain = true)
    (d : Nat) (l2 : List Op) :
    existsDocWriteOutsideTxn d (l1 ++ l2) = existsDocWriteOutsideTxn d l2 := by
  induction l1 with
  | nil => rfl
  | cons o r ih =>
    rw [List.all_cons, Bool.and_eq_true] at h
    obtain ⟨ho, hr⟩ := h
    cases o <;> simp_all [Op.isPlain, existsDocWriteOutsideTxn]

theorem getOrCreateCustomer_ops_plain (av : String → Bool) (db : Db) (chat : Chat) :
    ((getOrCreateCustomer av db chat).2.2).all Op.isPlain = true := by
  unfold getOrCreateCustomer
  split
  · rfl
  · split
    · simp [Op.isPlain]
    · split <;> simp [Op.isPlain]

theorem createOrUpdateDeal_ops_plain (db : Db) (chat : Chat) (cu : Customer)
    (ex : Option Deal) :
    ((createOrUpdateDeal db chat cu ex).2.2).all Op.isPlain = true := by
  unfold createOrUpdateDeal
  cases ex <;> simp [Op.isPlain]

/-- C8: when distributed-lock acquisition fails (the atomic set-if-absent
returns false because another run holds the lock), the invocation returns
the skipped outcome, is not an error, and exits without creating, reading,
or mutating any Run State: for every world, the world is returned intact
and the operation trace is empty. -/
theorem C8_lock_skip (api : MockApi) (df : String → String → Bool)
    (av : String → Bool) (fuel : Nat) (w : World) (tid : String)
    (md : Option Int) :
    syncChatsTask api df av true fuel w tid md = (TaskOutcome.skipped, w, []) := rfl

/-- C1 (counterexample): for the first record of the mock source,
processed with no failure against an empty database, the document-store
write occurs strictly inside the single relational transaction that also
contains the entity upsert and the finalize write — there is exactly one
transaction, and no document write happens outside it — contradicting the
claim that the document write is performed outside the relational
transaction and that the finalize is a separate relational write. -/
theorem C1_counterexample :
    (syncChatAtomic dfNone avFalse emptyDb c1Chat none).2
      = [Op.txnBegin, Op.createCustomer "cust_0000", Op.createDeal "chat_0000",
         Op.docWrite "chat_0000" "msg_0000", Op.finalizeDeal "chat_0000", Op.txnCommit]
    ∧ existsDocWriteOutsideTxn 0 (syncChatAtomic dfNone avFalse emptyDb c1Chat none).2 = false
    ∧ countOps Op.isTxnBegin (syncChatAtomic dfNone avFalse emptyDb c1Chat none).2 = 1 := by
  decide

/-- C2 (counterexample): in the scenario of the claim run against fresh
records — ten records in one page, record 7 (external id chat_0006)
throwing during the document write — the run does finish with processed
count 9, but record 7's entity does not end with sync_status FAILED: no
entity row for chat_0006 exists at all, because the relational
transaction rolled its creation back. -/
theorem C2_counterexample :
    c2RunA.1 = TaskOutcome.completed 9 "t1"
    ∧ findDeal c2RunA.2.1.db "chat_0006" = none := by
  decide

/-- C2 (amended): when record 7 of a ten-record page throws during the
document write, the run continues to completion with processed count 9
and every other entity COMPLETE; record 7 ends FAILED only when an
entity row for it existed before the run (scenario B), while for a fresh
record 7 the rolled-back transaction leaves no entity row at all
(scenario A).  In scenario B the FAILED row keeps its pre-run fields:
only the status changed. -/
theorem C2_amended_thm :
    (c2RunA.1 = TaskOutcome.completed 9 "t1"
      ∧ findDeal c2RunA.2.1.db "chat_0006" = none
      ∧ c2RunA.2.1.db.deals.length = 9
      ∧ c2RunA.2.1.db.deals.all (fun d => d.sync_status == SyncStatus.complete) = true
      ∧ c2RunA.2.1.runStore.map SyncState.status = [RunStatus.completed])
    ∧ (c2RunB.1 = TaskOutcome.completed 9 "t1"
      ∧ findDeal c2RunB.2.1.db "chat_0006"
          = some { c2DealOld with sync_status := SyncStatus.failed }
      ∧ c2RunB.2.1.db.deals.length = 10
      ∧ (c2RunB.2.1.db.deals.filter (fun d => !(d.external_id == "chat_0006"))).all
          (fun d => d.sync_status == SyncStatus.complete) = true
      ∧ c2RunB.2.1.runStore.map SyncState.status = [RunStatus.completed]) := by
  decide

/-- C3 (counterexample): in the 25-record scenario the engine does not
issue three cursor persists: the third page reports no further pages and
produces no next cursor, so only two cursor persists occur. -/
theorem C3_counterexample : countOps Op.isSaveCursor c3Run.2.2 ≠ 3 := by
  decide

/-- C3 (amended): for a source of 25 records in pages of 10 with no
cutoff, the engine processes all 25 records (25 COMPLETE entities, 25
document-store messages), persists the cursor exactly 2 times — after
each of the two pages that produced a next cursor; the final page
produces none — and ends with the Run State COMPLETED and processed
count 25. -/
theorem C3_amended_thm :
    c3Run.1 = TaskOutcome.completed 25 "t1"
    ∧ countOps Op.isSaveCursor c3Run.2.2 = 2
    ∧ c3Run.2.1.db.deals.length = 25
    ∧ c3Run.2.1.db.deals.all (fun d => d.sync_status == SyncStatus.complete) = true
    ∧ c3Run.2.1.db.messages.length = 25
    ∧ c3Run.2.1.runStore =
        [{ task_id := "t1", status := RunStatus.completed, cursor := "2"
           max_date := none, processed_chats := 25, error_message := "" }] := by
  decide

/-- C4 (counterexample): a deal row that is COMPLETE but has a null
customer reference appears in the result of the manager-level complete
listing (`DealManager.complete` filters on sync_status only),
contradicting the claim that an entity with a null counterparty appears
in no complete listing query. -/
theorem C4_counterexample :
    c4Deal.customer = none ∧ c4Deal ∈ dealManagerComplete [c4Deal] := by
  decide

/-- C5: running the engine a second time against the unchanged source —
the first record's entity already carries the incoming message id — the
run stops at record 1, the task completes with processed count 0, both
data stores are byte-for-byte unchanged (hence no duplicate entities and
no message_count change), and the only writes in the trace are Run State
bookkeeping (status transitions and the cursor persist of the first
page), no relational-index or document-store write. -/
theorem C5_idempotent_rerun :
    c5Run.1 = TaskOutcome.completed 0 "t2"
    ∧ c5Run.2.1.db = c3World.db
    ∧ countOps Op.isDataWrite c5Run.2.2 = 0
    ∧ c5Run.2.2 = [Op.saveRunStatus RunStatus.running, Op.saveCursor "1",
        Op.saveRunStatus RunStatus.completed]
    ∧ (processChat dfNone avFalse { db := c3World.db, sync := c5RunState }
        (generateChat api25 0)).2.1 = true
    ∧ processChats dfNone avFalse { db := c3World.db, sync := c5RunState }
        (getChats api25 none).chats
        = ({ db := c3World.db, sync := c5RunState }, true, []) := by
  decide

theorem existsDocWrite_cons_begin (d : Nat) (l : List Op) :
    existsDocWriteOutsideTxn d (Op.txnBegin :: l) = existsDocWriteOutsideTxn (d + 1) l := rfl

theorem countOps_txn_trace (p : Op → Bool) (hp : ∀ o, Op.isPlain o = true → p o = false)
    {l1 l2 : List Op} (h1 : l1.all Op.isPlain = true) (h2 : l2.all Op.isPlain = true)
    (tail : List Op) :
    countOps p (Op.txnBegin :: (l1 ++ l2) ++ tail) = countOps p (Op.txnBegin :: tail) := by
  simp [countOps, List.filter_cons, List.filter_append,
    filter_special_nil hp h1, filter_special_nil hp h2]

theorem existsDocWrite_txn_trace {l1 l2 : List Op}
    (h1 : l1.all Op.isPlain = true) (h2 : l2.all Op.isPlain = true)
    (tail : List Op) :
    existsDocWriteOutsideTxn 0 (Op.txnBegin :: (l1 ++ l2) ++ tail)
      = existsDocWriteOutsideTxn 1 tail := by
  rw [List.cons_append, existsDocWrite_cons_begin, List.append_assoc,
    existsDocWrite_skip_plain h1, existsDocWrite_skip_plain h2]

theorem syncChatAtomic_fst_of_fail (df : String → String → Bool) (av : String → Bool)
    (db : Db) (chat : Chat) (ex : Option Deal)
    (h : df chat.external_id chat.last_message.message_id = true) :
    (syncChatAtomic df av db chat ex).1 = none := by
  simp [syncChatAtomic, h]

theorem syncChatAtomic_snd_of_fail (df : String → String → Bool) (av : String → Bool)
    (db : Db) (chat : Chat) (ex : Option Deal)
    (h : df chat.external_id chat.last_message.message_id = true) :
    (syncChatAtomic df av db chat ex).2
      = Op.txnBegin :: ((getOrCreateCustomer av db chat).2.2
          ++ (createOrUpdateDeal (getOrCreateCustomer av db chat).1 chat
                (getOrCreateCustomer av db chat).2.1 ex).2.2) ++ [Op.txnRollback] := by
  simp [syncChatAtomic, h]

theorem syncChatAtomic_fst_of_ok (df : String → String → Bool) (av : String → Bool)
    (db : Db) (chat : Chat) (ex : Option Deal)
    (h : df chat.external_id chat.last_message.message_id = false) :
    (syncChatAtomic df av db chat ex).1.isSome = true := by
  simp [syncChatAtomic, h]

theorem syncChatAtomic_snd_of_ok (df : String → String → Bool) (av : String → Bool)
    (db : Db) (chat : Chat) (ex : Option Deal)
    (h : df chat.external_id chat.last_message.message_id = false) :
    (syncChatAtomic df av db chat ex).2
      = Op.txnBegin :: ((getOrCreateCustomer av db chat).2.2
          ++ (createOrUpdateDeal (getOrCreateCustomer av db chat).1 chat
                (getOrCreateCustomer av db chat).2.1 ex).2.2)
        ++ [Op.docWrite
              (createOrUpdateDeal (getOrCreateCustomer av db chat).1 chat
                (getOrCreateCustomer av db chat).2.1 ex).2.1.external_id
              chat.last_message.message_id,
            Op.finalizeDeal
              (createOrUpdateDeal (getOrCreateCustomer av db chat).1 chat
                (getOrCreateCustomer av db chat).2.1 ex).2.1.external_id,
            Op.txnCommit] := by
  simp [syncChatAtomic, h]

/-- C1 (amended): for every record processed by the atomic section, the
document-store write executes inside the single relational transaction
that also performs the entity upsert — exactly one transaction is
opened, and no document write occurs outside it; the finalize write is a
second write inside that same transaction, executed only after the
document write has succeeded (on a document-write failure the
transaction rolls back, no finalize and no document write are recorded,
and no database is returned), so COMPLETE still witnesses a successful
document write. -/
theorem C1_amended_thm (df : String → String → Bool) (av : String → Bool)
    (db : Db) (chat : Chat) (existing : Option Deal) :
    countOps Op.isTxnBegin (syncChatAtomic df av db chat existing).2 = 1
    ∧ existsDocWriteOutsideTxn 0 (syncChatAtomic df av db chat existing).2 = false
    ∧ (df chat.external_id chat.last_message.message_id = true →
        (syncChatAtomic df av db chat existing).1 = none
        ∧ countOps Op.isDocWrite (syncChatAtomic df av db chat existing).2 = 0
        ∧ countOps Op.isFinalize (syncChatAtomic df av db chat existing).2 = 0)
    ∧ (df chat.external_id chat.last_message.message_id = false →
        (syncChatAtomic df av db chat existing).1.isSome = true
        ∧ ∃ did pre, pre.all Op.isPlain = true
            ∧ (syncChatAtomic df av db chat existing).2
              = Op.txnBegin :: pre
                ++ [Op.docWrite did chat.last_message.message_id,
                    Op.finalizeDeal did, Op.txnCommit]) := by
  have h1 := getOrCreateCustomer_ops_plain av db chat
  have h2 := createOrUpdateDeal_ops_plain (getOrCreateCustomer av db chat).1 chat
    (getOrCreateCustomer av db chat).2.1 existing
  cases hdf : df chat.external_id chat.last_message.message_id with
  | true =>
    refine ⟨?_, ?_, fun _ => ⟨syncChatAtomic_fst_of_fail df av db chat existing hdf, ?_, ?_⟩,
      fun hc => by simp [hdf] at hc⟩
    · rw [syncChatAtomic_snd_of_fail df av db chat existing hdf,
        countOps_txn_trace _ isTxnBegin_of_plain h1 h2]
      rfl
    · rw [syncChatAtomic_snd_of_fail df av db chat existing hdf,
        existsDocWrite_txn_trace h1 h2]
      rfl
    · rw [syncChatAtomic_snd_of_fail df av db chat existing hdf,
        countOps_txn_trace _ isDocWrite_of_plain h1 h2]
      rfl
    · rw [syncChatAtomic_snd_of_fail df av db chat existing hdf,
        countOps_txn_trace _ isFinalize_of_plain h1 h2]
      rfl
  | false =>
    refine ⟨?_, ?_, fun hc => by simp [hdf] at hc,
      fun _ => ⟨syncChatAtomic_fst_of_ok df av db chat existing hdf, ?_⟩⟩
    · rw [syncChatAtomic_snd_of_ok df av db chat existing hdf,
        countOps_txn_trace _ isTxnBegin_of_plain h1 h2]
      rfl
    · rw [syncChatAtomic_snd_of_ok df av db chat existing hdf,
        existsDocWrite_txn_trace h1 h2]
      rfl
    · exact ⟨(createOrUpdateDeal (getOrCreateCustomer av db chat).1 chat
          (getOrCreateCustomer av db chat).2.1 existing).2.1.external_id,
        (getOrCreateCustomer av db chat).2.2
          ++ (createOrUpdateDeal (getOrCreateCustomer av db chat).1 chat
                (getOrCreateCustomer av db chat).2.1 existing).2.2,
        by rw [List.all_append, h1, h2]; rfl,
        syncChatAtomic_snd_of_ok df av db chat existing hdf⟩

/-- C1 (witness): the amended theorem applied to the first record of the
mock source against an empty database with no failure. -/
theorem C1_amended_witness :
    countOps Op.isTxnBegin (syncChatAtomic dfNone avFalse emptyDb c1Chat none).2 = 1
    ∧ existsDocWriteOutsideTxn 0 (syncChatAtomic dfNone avFalse emptyDb c1Chat none).2 = false
    ∧ ((syncChatAtomic dfNone avFalse emptyDb c1Chat none).1.isSome = true
       ∧ ∃ did pre, pre.all Op.isPlain = true
           ∧ (syncChatAtomic dfNone avFalse emptyDb c1Chat none).2
             = Op.txnBegin :: pre
               ++ [Op.docWrite did c1Chat.last_message.message_id,
                   Op.finalizeDeal did, Op.txnCommit]) :=
  ⟨(C1_amended_thm dfNone avFalse emptyDb c1Chat none).1,
   (C1_amended_thm dfNone avFalse emptyDb c1Chat none).2.1,
   (C1_amended_thm dfNone avFalse emptyDb c1Chat none).2.2.2 rfl⟩

/-- C6: the cutoff comparison of the per-record protocol is a strict
less-than on the record's timestamp: with a configured cutoff D, a
record strictly older than D makes processing stop immediately with no
writes (and stops the whole page loop), while a record whose timestamp
equals D exactly does not trigger the cutoff branch and is handed to the
normal remainder of the protocol. -/
theorem C6_cutoff_boundary (df : String → String → Bool) (av : String → Bool)
    (es : EngineState) (chat : Chat) (D : Int)
    (hd : es.sync.max_date = some D) :
    (chat.last_message.created_at < D → processChat df av es chat = (es, true, []))
    ∧ (chat.last_message.created_at = D →
        cutoffHit es.sync.max_date chat = false
        ∧ processChat df av es chat
          = if noChangeHit es.db chat then (es, true, [])
            else processChatBody df av es chat)
    ∧ (∀ rest, chat.last_message.created_at < D →
        processChats df av es (chat :: rest) = (es, true, [])) := by
  have hlt : chat.last_message.created_at < D →
      cutoffHit es.sync.max_date chat = true := by
    intro h
    simp [cutoffHit, hd, h]
  refine ⟨?_, ?_, ?_⟩
  · intro h
    simp [processChat, hlt h]
  · intro h
    have hfalse : cutoffHit es.sync.max_date chat = false := by
      simp [cutoffHit, hd, h]
    exact ⟨hfalse, by simp [processChat, hfalse]⟩
  · intro rest h
    simp [processChats, processChat, hlt h]

/-- C6 (witness): with cutoff 5, a record at timestamp 4 stops the run
with no writes and a record at timestamp 5 exactly is not skipped by the
cutoff branch. -/
theorem C6_cutoff_boundary_witness :
    processChat dfNone avFalse c6Es c6ChatBelow = (c6Es, true, [])
    ∧ cutoffHit c6Es.sync.max_date c6ChatAt = false
    ∧ processChat dfNone avFalse c6Es c6ChatAt
        = (if noChangeHit c6Es.db c6ChatAt then (c6Es, true, [])
           else processChatBody dfNone avFalse c6Es c6ChatAt)
    ∧ processChats dfNone avFalse c6Es [c6ChatBelow] = (c6Es, true, []) :=
  ⟨(C6_cutoff_boundary dfNone avFalse c6Es c6ChatBelow 5 rfl).1 (by decide),
   ((C6_cutoff_boundary dfNone avFalse c6Es c6ChatAt 5 rfl).2.1 rfl).1,
   ((C6_cutoff_boundary dfNone avFalse c6Es c6ChatAt 5 rfl).2.1 rfl).2,
   (C6_cutoff_boundary dfNone avFalse c6Es c6ChatBelow 5 rfl).2.2 [] (by decide)⟩

/-- C7: when any incomplete (PENDING or RUNNING) Run State exists, the
start-of-invocation load returns exactly that stored row — reusing its
cursor, cutoff date, and counters — leaves the store unchanged, and
creates nothing; and starting from a store with at most one incomplete
row, the store after the load still has at most one incomplete row. -/
theorem C7_resume_incomplete (store : List SyncState) (tid : String) (md : Option Int)
    (h : countIncomplete store ≤ 1) :
    (∀ s, store.find? isIncomplete = some s →
        getOrCreateSyncState store tid md = (s, store, false))
    ∧ countIncomplete (getOrCreateSyncState store tid md).2.1 ≤ 1 := by
  constructor
  · intro s hs
    simp [getOrCreateSyncState, hs]
  · cases hs : store.find? isIncomplete with
    | some s => simpa [getOrCreateSyncState, hs] using h
    | none =>
      have hnil : store.filter isIncomplete = [] := by
        rw [List.filter_eq_nil_iff]
        exact List.find?_eq_none.mp hs
      simp [getOrCreateSyncState, hs, countIncomplete, List.filter_append, hnil,
        isIncomplete]

/-- C7 (witness): a store holding one RUNNING row with stored cursor and
counters is returned as-is, unchanged and without a new row, and keeps
at most one incomplete row. -/
theorem C7_resume_incomplete_witness :
    getOrCreateSyncState c7Store "b" none = (c7StoreHead, c7Store, false)
    ∧ countIncomplete (getOrCreateSyncState c7Store "b" none).2.1 ≤ 1 :=
  ⟨(C7_resume_incomplete c7Store "b" none (by decide)).1 c7StoreHead (by decide),
   (C7_resume_incomplete c7Store "b" none (by decide)).2⟩

theorem markDealFailed_customers (db : Db) (did : String) :
    (markDealFailed db did).customers = db.customers := rfl

theorem markDealFailed_messages (db : Db) (did : String) :
    (markDealFailed db did).messages = db.messages := rfl

theorem findDeal_id {db : Db} {did : String} {d : Deal}
    (h : findDeal db did = some d) : d.external_id = did := by
  unfold findDeal at h
  have hp := List.find?_some h
  simp only [beq_iff_eq] at hp
  exact hp

/-- C10: if the per-record atomic section raises (here: the
document-store write fails), every relational write made for that record
is rolled back as a unit — customers and the document store are exactly
as before, the run is not stopped, and the run counters are untouched —
and in particular a record whose external id had no entity row before
processing leaves the database exactly as it was (so no entity row
exists afterwards, in no status), while a record whose external id had
an entity row leaves the database equal to the original with only that
row's sync_status set to FAILED. -/
theorem C10_rollback_unit (df : String → String → Bool) (av : String → Bool)
    (db : Db) (sync : SyncState) (chat : Chat)
    (hfail : df chat.external_id chat.last_message.message_id = true)
    (hcut : cutoffHit sync.max_date chat = false)
    (hnc : noChangeHit db chat = false) :
    (processChat df av { db := db, sync := sync } chat).1.db.customers = db.customers
    ∧ (processChat df av { db := db, sync := sync } chat).1.db.messages = db.messages
    ∧ (processChat df av { db := db, sync := sync } chat).2.1 = false
    ∧ (processChat df av { db := db, sync := sync } chat).1.sync = sync
    ∧ (findDeal db chat.external_id = none →
        (processChat df av { db := db, sync := sync } chat).1.db = db)
    ∧ (∀ d, findDeal db chat.external_id = some d →
        (processChat df av { db := db, sync := sync } chat).1.db
          = markDealFailed db chat.external_id) := by
  have hbody : processChat df av { db := db, sync := sync } chat
      = processChatBody df av { db := db, sync := sync } chat := by
    simp [processChat, hcut, hnc]
  have hfst := syncChatAtomic_fst_of_fail df av db chat (findDeal db chat.external_id) hfail
  cases hex : findDeal db chat.external_id with
  | none =>
    have hfst2 : (syncChatAtomic df av db chat none).1 = none := hex ▸ hfst
    have hres : processChatBody df av { db := db, sync := sync } chat
        = ({ db := db, sync := sync }, false, (syncChatAtomic df av db chat none).2) := by
      simp only [processChatBody]
      rw [hex, hfst2]
    rw [hbody, hres]
    exact ⟨rfl, rfl, rfl, rfl, fun _ => rfl, fun d hd => Option.noConfusion hd⟩
  | some d =>
    have hid : d.external_id = chat.external_id := findDeal_id hex
    have hfst2 : (syncChatAtomic df av db chat (some d)).1 = none := hex ▸ hfst
    have hres : processChatBody df av { db := db, sync := sync } chat
        = ({ db := markDealFailed db d.external_id, sync := sync }, false,
            (syncChatAtomic df av db chat (some d)).2 ++ [Op.markFailed d.external_id]) := by
      simp only [processChatBody]
      rw [hex, hfst2]
    rw [hbody, hres]
    refine ⟨markDealFailed_customers db d.external_id,
      markDealFailed_messages db d.external_id, rfl, rfl,
      fun hnone => Option.noConfusion hnone, fun d2 hd2 => ?_⟩
    obtain rfl : d = d2 := Option.some.inj hd2
    show markDealFailed db d.external_id = markDealFailed db chat.external_id
    rw [hid]

/-- C10 (witness): the rollback theorem applied to the failing record 7
of the mock page, once against an empty database (no row remains) and
once against a database holding a stale row for it (only the status
flips to FAILED). -/
theorem C10_rollback_unit_witness :
    (processChat df7 avFalse { db := emptyDb, sync := c10Sync } c10Chat).1.db = emptyDb
    ∧ (processChat df7 avFalse
        { db := { customers := [], deals := [c2DealOld], messages := [] }, sync := c10Sync }
        c10Chat).1.db
      = markDealFailed { customers := [], deals := [c2DealOld], messages := [] }
          c10Chat.external_id :=
  ⟨(C10_rollback_unit df7 avFalse emptyDb c10Sync c10Chat (by decide) (by decide)
      (by decide)).2.2.2.2.1 (by decide),
   (C10_rollback_unit df7 avFalse { customers := [], deals := [c2DealOld], messages := [] }
      c10Sync c10Chat (by decide) (by decide) (by decide)).2.2.2.2.2 c2DealOld (by decide)⟩

theorem updateDealRow_dbInvStep (db : Db) (did : String) (f : Deal → Deal)
    (hf : ∀ d, (f d).sync_status = SyncStatus.complete → (f d).customer.isSome = true) :
    dbInvStep db (updateDealRow db did f) := by
  refine ⟨fun c hc => hc, fun h => h, fun h => ?_⟩
  intro d hd hds
  simp only [updateDealRow, List.mem_map] at hd
  obtain ⟨d0, hd0, hdeq⟩ := hd
  by_cases hm : (d0.external_id == did) = true
  · rw [if_pos hm] at hdeq
    subst hdeq
    exact hf d0 hds
  · rw [if_neg hm] at hdeq
    subst hdeq
    exact h d0 hd0 hds

theorem saveMessage_dbInvStep (db : Db) (cid mid text : String) (ts : Int) :
    dbInvStep db (saveMessage db cid mid text ts) :=
  ⟨fun _ hc => hc, id, fun h => h⟩

theorem createOrUpdateDeal_dbInvStep (db : Db) (chat : Chat) (cu : Customer)
    (ex : Option Deal) :
    dbInvStep db (createOrUpdateDeal db chat cu ex).1 := by
  cases ex with
  | some d =>
    exact updateDealRow_dbInvStep db d.external_id _ (fun _ hc => by cases hc)
  | none =>
    refine ⟨fun c hc => hc, fun h => h, fun h => ?_⟩
    intro d hd hds
    rcases List.mem_append.mp hd with h1 | h1
    · exact h d h1 hds
    · simp only [List.mem_singleton] at h1
      subst h1
      cases hds

theorem createOrUpdateDeal_deal_customer (db : Db) (chat : Chat) (cu : Customer)
    (ex : Option Deal) :
    (createOrUpdateDeal db chat cu ex).2.1.customer = some cu.external_id := by
  cases ex <;> rfl

theorem append_like_dbInvStep (db post : Db) (c : Customer)
    (hc : post.customers = db.customers ++ [c])
    (hd : post.deals = db.deals)
    (hnot : c.external_id ∉ custIds db.customers) :
    dbInvStep db post := by
  refine ⟨fun x hx => ?_, fun h => ?_, fun h => ?_⟩
  · rw [hc]
    exact List.mem_append_left _ hx
  · rw [hc]
    simp only [custIds, List.map_append, List.map_cons, List.map_nil]
    rw [List.nodup_append]
    refine ⟨h, List.nodup_singleton _, ?_⟩
    intro a ha hb
    simp only [List.mem_singleton] at hb
    subst hb
    exact hnot ha
  · intro d hd2 hds
    rw [hd] at hd2
    exact h d hd2 hds

theorem updateCustomerRow_append_fresh (db : Db) (c c2 : Customer)
    (hall : ∀ x ∈ db.customers, (x.external_id == c.external_id) = false) :
    (updateCustomerRow { db with customers := db.customers ++ [c] } c.external_id
        (fun _ => c2)).customers = db.customers ++ [c2] := by
  simp only [updateCustomerRow, List.map_append, List.map_cons, List.map_nil]
  have h1 : db.customers.map
      (fun x => if x.external_id == c.external_id then c2 else x) = db.customers := by
    have h2 := List.map_congr_left (l := db.customers)
      (f := fun x => if x.external_id == c.external_id then c2 else x) (g := id)
      (fun a ha => by simp [hall a ha])
    simpa using h2
  rw [h1]
  simp

theorem getOrCreateCustomer_dbInvStep (av : String → Bool) (db : Db) (chat : Chat) :
    dbInvStep db (getOrCreateCustomer av db chat).1 := by
  cases hfind : findCustomer db chat.customer.external_id with
  | some c =>
    have h : (getOrCreateCustomer av db chat).1 = db := by
      simp [getOrCreateCustomer, hfind]
    rw [h]
    exact dbInvStep_refl db
  | none =>
    have hall : ∀ x ∈ db.customers, (x.external_id == chat.customer.external_id) = false := by
      intro x hx
      have hnp := List.find?_eq_none.mp hfind x hx
      simpa using hnp
    have hnot : chat.customer.external_id ∉ custIds db.customers := by
      simp only [custIds, List.mem_map]
      rintro ⟨x, hx, hxe⟩
      have hfx := hall x hx
      rw [hxe] at hfx
      simp at hfx
    by_cases hurl : (chat.customer.avatar_url == "") = true
    · have h : (getOrCreateCustomer av db chat).1
          = { db with customers := db.customers
              ++ [⟨chat.customer.external_id, chat.customer.name,
                    chat.customer.avatar_url, ""⟩] } := by
        simp [getOrCreateCustomer, hfind, hurl]
      rw [h]
      exact append_like_dbInvStep db _ _ rfl rfl hnot
    · by_cases hav : av chat.customer.avatar_url = true
      · have h : (getOrCreateCustomer av db chat).1
            = updateCustomerRow
                { db with customers := db.customers
                    ++ [⟨chat.customer.external_id, chat.customer.name,
                          chat.customer.avatar_url, ""⟩] }
                chat.customer.external_id
                (fun _ => ⟨chat.customer.external_id, chat.customer.name,
                    chat.customer.avatar_url,
                    "avatars/" ++ chat.customer.external_id ++ ".jpg"⟩) := by
          simp [getOrCreateCustomer, hfind, hurl, hav]
        rw [h]
        exact append_like_dbInvStep db _
          ⟨chat.customer.external_id, chat.customer.name, chat.customer.avatar_url,
            "avatars/" ++ chat.customer.external_id ++ ".jpg"⟩
          (updateCustomerRow_append_fresh db
            ⟨chat.customer.external_id, chat.customer.name, chat.customer.avatar_url, ""⟩
            _ hall)
          rfl hnot
      · have h : (getOrCreateCustomer av db chat).1
            = { db with customers := db.customers
                ++ [⟨chat.customer.external_id, chat.customer.name,
                      chat.customer.avatar_url, ""⟩] } := by
          simp [getOrCreateCustomer, hfind, hurl, hav]
        rw [h]
        exact append_like_dbInvStep db _ _ rfl rfl hnot

theorem syncChatAtomic_dbInvStep (df : String → String → Bool) (av : String → Bool)
    (db : Db) (chat : Chat) (ex : Option Deal) :
    ∀ db2, (syncChatAtomic df av db chat ex).1 = some db2 → dbInvStep db db2 := by
  intro db2 h
  cases hdf : df chat.external_id chat.last_message.message_id with
  | true =>
    rw [syncChatAtomic_fst_of_fail df av db chat ex hdf] at h
    cases h
  | false =>
    have hsome : (syncChatAtomic df av db chat ex).1
        = some (updateDealRow
            (saveMessage (createOrUpdateDeal (getOrCreateCustomer av db chat).1 chat
                (getOrCreateCustomer av db chat).2.1 ex).1
              (createOrUpdateDeal (getOrCreateCustomer av db chat).1 chat
                (getOrCreateCustomer av db chat).2.1 ex).2.1.external_id
              chat.last_message.message_id chat.last_message.text
              chat.last_message.created_at)
            (createOrUpdateDeal (getOrCreateCustomer av db chat).1 chat
                (getOrCreateCustomer av db chat).2.1 ex).2.1.external_id
            (fun _ =>
              { (createOrUpdateDeal (getOrCreateCustomer av db chat).1 chat
                  (getOrCreateCustomer av db chat).2.1 ex).2.1 with
                  sync_status := SyncStatus.complete
                  total_messages := (createOrUpdateDeal (getOrCreateCustomer av db chat).1
                      chat (getOrCreateCustomer av db chat).2.1 ex).2.1.total_messages
                    + 1 })) := by
      simp [syncChatAtomic, hdf]
    rw [hsome] at h
    obtain rfl := Option.some.inj h
    refine dbInvStep_trans (getOrCreateCustomer_dbInvStep av db chat)
      (dbInvStep_trans (createOrUpdateDeal_dbInvStep _ chat _ ex)
        (dbInvStep_trans (saveMessage_dbInvStep _ _ _ _ _)
          (updateDealRow_dbInvStep _ _ _ ?_)))
    intro d _
    rw [createOrUpdateDeal_deal_customer]
    rfl

theorem processChat_dbInvStep (df : String → String → Bool) (av : String → Bool)
    (es : EngineState) (chat : Chat) :
    dbInvStep es.db (processChat df av es chat).1.db := by
  by_cases hcut : cutoffHit es.sync.max_date chat = true
  · have h : processChat df av es chat = (es, true, []) := by
      simp [processChat, hcut]
    rw [h]
    exact dbInvStep_refl _
  · by_cases hnc : noChangeHit es.db chat = true
    · have h : processChat df av es chat = (es, true, []) := by
        simp [processChat, hcut, hnc]
      rw [h]
      exact dbInvStep_refl _
    · have hb : processChat df av es chat = processChatBody df av es chat := by
        simp [processChat, hcut, hnc]
      rw [hb]
      cases hex : findDeal es.db chat.external_id with
      | some d =>
        cases hA : (syncChatAtomic df av es.db chat (some d)).1 with
        | some db2 =>
          have h : (processChatBody df av es chat).1.db = db2 := by
            simp [processChatBody, hex, hA]
          rw [h]
          exact syncChatAtomic_dbInvStep df av es.db chat (some d) db2 hA
        | none =>
          have h : (processChatBody df av es chat).1.db
              = markDealFailed es.db d.external_id := by
            simp [processChatBody, hex, hA]
          rw [h]
          exact updateDealRow_dbInvStep _ _ _ (fun d0 hc => by cases hc)
      | none =>
        cases hA : (syncChatAtomic df av es.db chat none).1 with
        | some db2 =>
          have h : (processChatBody df av es chat).1.db = db2 := by
            simp [processChatBody, hex, hA]
          rw [h]
          exact syncChatAtomic_dbInvStep df av es.db chat none db2 hA
        | none =>
          have h : (processChatBody df av es chat).1.db = es.db := by
            simp [processChatBody, hex, hA]
          rw [h]
          exact dbInvStep_refl _

theorem processChats_dbInvStep (df : String → String → Bool) (av : String → Bool) :
    ∀ (chats : List Chat) (es : EngineState),
    dbInvStep es.db (processChats df av es chats).1.db := by
  intro chats
  induction chats with
  | nil => intro es; exact dbInvStep_refl _
  | cons c rest ih =>
    intro es
    cases hstop : (processChat df av es c).2.1 with
    | true =>
      have h : (processChats df av es (c :: rest)).1 = (processChat df av es c).1 := by
        simp [processChats, hstop]
      rw [h]
      exact processChat_dbInvStep df av es c
    | false =>
      have h : (processChats df av es (c :: rest)).1
          = (processChats df av (processChat df av es c).1 rest).1 := by
        simp [processChats, hstop]
      rw [h]
      exact dbInvStep_trans (processChat_dbInvStep df av es c) (ih _)

theorem runLoop_dbInvStep (api : MockApi) (df : String → String → Bool)
    (av : String → Bool) :
    ∀ (fuel : Nat) (es : EngineState) (cursor : Option String),
    dbInvStep es.db (runLoop api df av fuel es cursor).1.db := by
  intro fuel
  induction fuel with
  | zero => intro es cursor; exact dbInvStep_refl _
  | succ n ih =>
    intro es cursor
    cases hpc : (getChats api cursor).next_cursor with
    | none =>
      cases hstop : ((processChats df av es (getChats api cursor).chats).2.1
          || !(getChats api cursor).has_more) with
      | true =>
        have h : (runLoop api df av (n + 1) es cursor).1
            = (processChats df av es (getChats api cursor).chats).1 := by
          simp [runLoop, hpc, hstop]
        rw [h]
        exact processChats_dbInvStep df av _ es
      | false =>
        have h : (runLoop api df av (n + 1) es cursor).1
            = (runLoop api df av n
                (processChats df av es (getChats api cursor).chats).1 none).1 := by
          simp [runLoop, hpc, hstop]
        rw [h]
        exact dbInvStep_trans (processChats_dbInvStep df av _ es)
          (ih (processChats df av es (getChats api cursor).chats).1 none)
    | some c =>
      cases hstop : ((processChats df av es (getChats api cursor).chats).2.1
          || !(getChats api cursor).has_more) with
      | true =>
        have h : (runLoop api df av (n + 1) es cursor).1
            = { (processChats df av es (getChats api cursor).chats).1 with
                sync := { (processChats df av es (getChats api cursor).chats).1.sync with
                  cursor := c } } := by
          simp [runLoop, hpc, hstop]
        rw [h]
        exact processChats_dbInvStep df av _ es
      | false =>
        have h : (runLoop api df av (n + 1) es cursor).1
            = (runLoop api df av n
                { (processChats df av es (getChats api cursor).chats).1 with
                  sync := { (processChats df av es (getChats api cursor).chats).1.sync with
                    cursor := c } } (some c)).1 := by
          simp [runLoop, hpc, hstop]
        rw [h]
        exact dbInvStep_trans (processChats_dbInvStep df av _ es)
          (ih { (processChats df av es (getChats api cursor).chats).1 with
                sync := { (processChats df av es (getChats api cursor).chats).1.sync with
                  cursor := c } } (some c))

/-- C9: counterparty resolution is create-if-absent by external id: when
a record arrives for an external id whose counterparty row already
exists, the row is returned as-is with no writes at all (the database is
returned unchanged and the operation trace is empty); across a whole
engine run every pre-existing customer row survives field-for-field, and
uniqueness of customer external ids is preserved, so a counterparty row
is created at most once per external id. -/
theorem C9_counterparty_insert_only (api : MockApi) (df : String → String → Bool)
    (av : String → Bool) (fuel : Nat) (es : EngineState) (cursor : Option String) :
    (∀ (dbx : Db) (chatx : Chat) (c : Customer),
        findCustomer dbx chatx.customer.external_id = some c →
        getOrCreateCustomer av dbx chatx = (dbx, c, []))
    ∧ (∀ c ∈ es.db.customers, c ∈ (runLoop api df av fuel es cursor).1.db.customers)
    ∧ ((custIds es.db.customers).Nodup →
        (custIds (runLoop api df av fuel es cursor).1.db.customers).Nodup) := by
  refine ⟨?_, (runLoop_dbInvStep api df av fuel es cursor).1,
    (runLoop_dbInvStep api df av fuel es cursor).2.1⟩
  intro dbx chatx c h
  simp [getOrCreateCustomer, h]

/-- C9 (witness): a customer row existing before the run — matching the
first record of the mock source — is returned untouched with no writes
by the resolution step, survives a one-page engine run unchanged, and
external ids stay unique. -/
theorem C9_counterparty_insert_only_witness :
    getOrCreateCustomer avFalse c9Es.db c1Chat = (c9Es.db, c9Cust, [])
    ∧ c9Cust ∈ (runLoop api25 dfNone avFalse 1 c9Es none).1.db.customers
    ∧ (custIds (runLoop api25 dfNone avFalse 1 c9Es none).1.db.customers).Nodup :=
  ⟨(C9_counterparty_insert_only api25 dfNone avFalse 1 c9Es none).1
      c9Es.db c1Chat c9Cust (by decide),
   (C9_counterparty_insert_only api25 dfNone avFalse 1 c9Es none).2.1 c9Cust (by decide),
   (C9_counterparty_insert_only api25 dfNone avFalse 1 c9Es none).2.2 (by decide)⟩

/-- C4 (amended): the consumer-facing viewset listing admits an entity
only when sync_status = COMPLETE and the counterparty is non-null, and
excludes every entity violating either condition; the manager-level
complete() listing filters on sync_status only, so it excludes
non-COMPLETE entities but can admit a COMPLETE entity with a null
counterparty (which is the counterexample); independently, the sync
engine preserves the invariant that every COMPLETE deal row carries a
non-null counterparty. -/
theorem C4_amended_thm (deals : List Deal) (d : Deal) (api : MockApi)
    (df : String → String → Bool) (av : String → Bool) (fuel : Nat)
    (es : EngineState) (cursor : Option String) :
    (d ∈ dealViewSetQueryset deals →
        d.sync_status = SyncStatus.complete ∧ d.customer.isSome = true)
    ∧ (d.sync_status ≠ SyncStatus.complete ∨ d.customer = none →
        d ∉ dealViewSetQueryset deals)
    ∧ (d.sync_status ≠ SyncStatus.complete → d ∉ dealManagerComplete deals)
    ∧ (completeHasCustomer es.db →
        completeHasCustomer (runLoop api df av fuel es cursor).1.db) := by
  have hmem : d ∈ dealViewSetQueryset deals ↔
      d ∈ deals.filter
        (fun x => x.sync_status == SyncStatus.complete && x.customer.isSome) := by
    unfold dealViewSetQueryset
    exact (List.mergeSort_perm _ lastMessageDesc).mem_iff
  refine ⟨?_, ?_, ?_, (runLoop_dbInvStep api df av fuel es cursor).2.2⟩
  · intro hd
    rw [hmem, List.mem_filter] at hd
    obtain ⟨-, hp⟩ := hd
    simp only [Bool.and_eq_true, beq_iff_eq] at hp
    exact hp
  · intro hbad hd
    rw [hmem, List.mem_filter] at hd
    simp only [Bool.and_eq_true, beq_iff_eq] at hd
    rcases hbad with hs | hc
    · exact hs hd.2.1
    · rw [hc] at hd
      cases hd.2.2
  · intro hs hd
    unfold dealManagerComplete at hd
    rw [List.mem_filter] at hd
    simp only [beq_iff_eq] at hd
    exact hs hd.2

/-- C4 (witness): the COMPLETE-but-null-customer deal is excluded from
the viewset listing, and a one-page engine run from a database
satisfying the COMPLETE-implies-customer invariant keeps it. -/
theorem C4_amended_witness :
    c4Deal ∉ dealViewSetQueryset [c4Deal]
    ∧ completeHasCustomer (runLoop api25 dfNone avFalse 1 c9Es none).1.db :=
  ⟨(C4_amended_thm [c4Deal] c4Deal api25 dfNone avFalse 1 c9Es none).2.1 (Or.inr rfl),
   (C4_amended_thm [c4Deal] c4Deal api25 dfNone avFalse 1 c9Es none).2.2.2
     (fun d hd => absurd hd (List.not_mem_nil d))⟩
